import Mathlib

/-!
Verification of the Jawartou e-commerce backend (FastAPI + MongoDB).

Shallow embedding of the code relevant to the stock computation
(`app/core/utils.py`), the cart stores (`app/api/cart.py` and the duplicated
cart router inside `app/api/orders.py`), and the cart-to-order commit
(`create_order` in `app/api/orders.py`).

Conventions of the embedding:
  * JSON-ish Python values are modelled by `PyVal` (ints, strings, dicts as
    association lists, lists, and `None`).  Python `bool` (a subclass of
    `int`) does not occur in any stock document handled by the code and is
    not modelled.
  * Mongo documents of a fixed shape are modelled by Lean structures;
    free-form documents by `List (String × PyVal)`.
  * `datetime.now()` is an opaque tick passed in as an integer parameter.
  * Prices are rationals (Python floats whose arithmetic here is exact
    snapshot copying and summation of the very same expressions, so the
    numeric carrier does not affect the stated properties); quantities are
    integers.
  * A raised exception is an `Except.error` carrying the `PyErr`; the
    database state travels alongside, so an error outcome shows exactly
    which writes happened before the raise.
-/

/-- JSON-ish Python values as stored in Mongo documents. -/
inductive PyVal where
  | none
  | int (n : ℤ)
  | str (s : String)
  | dict (entries : List (String × PyVal))
  | list (elems : List PyVal)

namespace PyVal

/-- Python truthiness for the modelled values
(`not x` in the source is `pyTruthy x = false`). -/
def pyTruthy : PyVal → Bool
  | .none => false
  | .int n => n != 0
  | .str s => s != ""
  | .dict es => !es.isEmpty
  | .list xs => !xs.isEmpty

/-- `isinstance(x, dict)`. -/
def isDict : PyVal → Bool
  | .dict _ => true
  | _ => false

/-- `isinstance(x, int)`. -/
def isInt : PyVal → Bool
  | .int _ => true
  | _ => false

end PyVal

/-- `d.get(k)` on an association-list document: first binding wins. -/
def dictGet (doc : List (String × PyVal)) (k : String) : Option PyVal :=
  (doc.find? (fun p => p.1 == k)).map (·.2)

/-- Contribution of a second-level value inside a nested stock mapping:
`if isinstance(sub_value, int): total += sub_value` (utils.py lines 101-103). -/
def subContribution : PyVal → ℤ
  | .int n => n
  | _ => 0

/-- Contribution of one top-level stock entry (utils.py lines 95-103):
a plain integer adds itself, a nested mapping adds its integer leaves,
anything else adds nothing. -/
def entryContribution : PyVal → ℤ
  | .int n => n
  | .dict sub => (sub.map (fun q => subContribution q.2)).sum
  | _ => 0

/-- `calculate_total_stock` (app/core/utils.py lines 82-105):
`if not stock or not isinstance(stock, dict): return 0`, then the two-level
walk accumulating integer leaves. -/
def calculate_total_stock (stock : PyVal) : ℤ :=
  if !stock.pyTruthy || !stock.isDict then 0
  else
    match stock with
    | .dict es => (es.map (fun p => entryContribution p.2)).sum
    | _ => 0

/-- The availability pair computed by `serialize_product`
(app/core/utils.py lines 68-71): `stockTotal` and the derived flag
`inStock = total_stock > 0`. -/
def serializeAvailability (stock : PyVal) : ℤ × Bool :=
  let t := calculate_total_stock stock
  (t, decide (0 < t))

/-- `serialize_product` reads the stock structure with `doc.get("stock", {})`
(utils.py line 69). -/
def productStockVal (doc : List (String × PyVal)) : PyVal :=
  (dictGet doc "stock").getD (.dict [])

/-- Modelled from the spec (§4.1 / claim C4 wording): the reference fold —
walk exactly one level of flat entries plus one level of nested entries;
a top-level integer adds itself, a top-level mapping contributes each of its
integer leaves, non-integer leaves are ignored, and a missing/null or
non-mapping stock structure yields 0. -/
def specAvailability : PyVal → ℤ
  | .dict es =>
      (es.map (fun p =>
        match p.2 with
        | .int n => n
        | .dict sub =>
            (sub.map (fun q =>
              match q.2 with
              | .int m => m
              | _ => 0)).sum
        | _ => 0)).sum
  | _ => 0

/-- A second-level value is a non-negative leaf when it is an integer. -/
def leafNonneg (v : PyVal) : Bool :=
  match v with
  | .int n => decide (0 ≤ n)
  | _ => true

/-- A top-level stock entry has only non-negative integer leaves. -/
def entryNonneg (v : PyVal) : Bool :=
  match v with
  | .int n => decide (0 ≤ n)
  | .dict sub => sub.all (fun q => leafNonneg q.2)
  | _ => true

/-- Decidable statement of the spec invariant "every leaf value is a
non-negative integer" over the two levels the walk reads. -/
def intLeavesNonneg (stock : PyVal) : Bool :=
  match stock with
  | .dict es => es.all (fun p => entryNonneg p.2)
  | _ => true

/-- Example stock structures from the spec. -/
def stockFlatExample : PyVal := .dict [("50ml", .int 10)]

def stockNestedExample : PyVal :=
  .dict [("Noir", .dict [("S", .int 5), ("M", .int 10)]),
         ("Blanc", .dict [("S", .int 3)])]

/-- A malformed stock structure with a negative integer leaf. -/
def stockNegExample : PyVal := .dict [("a", .int (-5))]

/-! ## The /api/cart store (app/api/cart.py, documents keyed by `userId`) -/

/-- Cart line of the /api/cart store (the item dict built at cart.py
lines 68-75). -/
structure CartItem where
  productId : String
  name : String
  price : ℚ
  quantity : ℤ
  size : String
  color : String
deriving Repr, DecidableEq

/-- Cart document of the /api/cart store.  Documents created by `get_cart`
or `add_to_cart` (cart.py lines 21-27 and 58-64) carry `createdAt`; a
document upserted by `update_cart` (lines 119-129) does not, hence the
option. -/
structure CartDoc where
  userId : String
  items : List CartItem
  total : ℚ
  createdAt : Option ℤ
  updatedAt : ℤ
deriving Repr, DecidableEq

/-- Recomputed denormalized total, `sum(i["price"] * i["quantity"] for i in
cart["items"])` (cart.py line 92; same expression at lines 117, 281). -/
def cartTotal (items : List CartItem) : ℚ :=
  (items.map (fun i => i.price * (i.quantity : ℚ))).sum

/-- Identity-key comparison of the merge generator at cart.py lines 78-84:
same productId, same size, same color. -/
def sameKey (i : CartItem) (pid size color : String) : Bool :=
  i.productId == pid && i.size == size && i.color == color

/-- In-place increment of the first line matching the key, as the Python
code does by mutating the item found with `next` (cart.py lines 86-87). -/
def bumpFirst : List CartItem → String → String → String → ℤ → List CartItem
  | [], _, _, _, _ => []
  | i :: rest, pid, size, color, q =>
      if sameKey i pid size color then { i with quantity := i.quantity + q } :: rest
      else i :: bumpFirst rest pid size color q

/-- The in-memory merge step of cart.py `add_to_cart` (lines 77-89): if a
line with the same (productId, size, color) exists, increment its quantity,
else append the new line. -/
def cartAddItems (items : List CartItem) (it : CartItem) : List CartItem :=
  if (items.find? (fun i => sameKey i it.productId it.size it.color)).isSome then
    bumpFirst items it.productId it.size it.color it.quantity
  else items ++ [it]

/-- Mongo `find_one({"userId": uid})`: first matching document. -/
def findCartDoc (docs : List CartDoc) (uid : String) : Option CartDoc :=
  docs.find? (fun d => d.userId == uid)

/-- Mongo `update_one({"userId": uid}, ...)`: rewrite the first matching
document, leave the rest untouched. -/
def updateFirstCart : List CartDoc → String → (CartDoc → CartDoc) → List CartDoc
  | [], _, _ => []
  | d :: rest, uid, f =>
      if d.userId == uid then f d :: rest else d :: updateFirstCart rest uid f

/-- The mutating operations of the /api/cart router: `add_to_cart`
(POST /add, after product resolution), `update_cart` (PUT, bulk replace)
and `clear_cart` (DELETE). -/
inductive CartMutation where
  | add (it : CartItem)
  | replace (items : List CartItem)
  | clear
deriving Repr, DecidableEq

/-- One mutation of the /api/cart store, per the source:
  * `add` (cart.py lines 55-98): create the cart if absent, merge the item
    in memory, recompute the total, `$set` the whole cart;
  * `replace` (lines 107-129): `$set` items with a recomputed total,
    upserting a document (without `createdAt`) when absent;
  * `clear` (lines 137-150): `$set` empty items and total 0, no upsert. -/
def applyCartMutation (docs : List CartDoc) (uid : String) (now : ℤ) :
    CartMutation → List CartDoc
  | .add it =>
      match findCartDoc docs uid with
      | Option.none =>
          docs ++ [{ userId := uid, items := [it], total := cartTotal [it],
                     createdAt := some now, updatedAt := now }]
      | some _ =>
          updateFirstCart docs uid (fun d =>
            { d with items := cartAddItems d.items it,
                     total := cartTotal (cartAddItems d.items it),
                     updatedAt := now })
  | .replace its =>
      match findCartDoc docs uid with
      | Option.none =>
          docs ++ [{ userId := uid, items := its, total := cartTotal its,
                     createdAt := Option.none, updatedAt := now }]
      | some _ =>
          updateFirstCart docs uid (fun d =>
            { d with items := its, total := cartTotal its, updatedAt := now })
  | .clear =>
      updateFirstCart docs uid (fun d =>
        { d with items := [], total := 0, updatedAt := now })

/-- A timestamped sequence of /api/cart mutations for one user, applied in
order. -/
def applyCartMutations (docs : List CartDoc) (uid : String)
    (ms : List (ℤ × CartMutation)) : List CartDoc :=
  ms.foldl (fun acc p => applyCartMutation acc uid p.1 p.2) docs

/-- Boolean check that the cart document every read and update of `uid`
addresses (the first match) stores a total equal to the recomputed line
sum. -/
def storedTotalConsistent (docs : List CartDoc) (uid : String) : Bool :=
  match findCartDoc docs uid with
  | Option.none => true
  | some d => d.total == cartTotal d.items

/-! ## The duplicated cart router and `create_order`
(app/api/orders.py, cart documents keyed by `user`) -/

/-- Cart line of the orders-router store (item dict at orders.py
lines 247-253: productId, name, price, quantity, image — no size/color). -/
structure OCartItem where
  productId : String
  name : String
  price : ℚ
  quantity : ℤ
  image : String
deriving Repr, DecidableEq

/-- Cart document of the orders-router store, keyed by `user`.  No code
path ever writes a `total` field into these documents (the upsert at
orders.py lines 256-263 creates `user`, `items`, `lastUpdated` only), hence
the option. -/
structure OCartDoc where
  user : String
  items : List OCartItem
  total : Option ℚ
  lastUpdated : ℤ
deriving Repr, DecidableEq

/-- Line sum over orders-router cart items, `sum(item["price"] *
item["quantity"] for item in cart["items"])` (orders.py lines 51, 190,
281). -/
def oCartTotal (items : List OCartItem) : ℚ :=
  (items.map (fun i => i.price * (i.quantity : ℚ))).sum

/-- Order document as built by `create_order` (orders.py lines 54-64).
Note the field list: there is no order-number field of any kind. -/
structure OrderDoc where
  user : String
  items : List OCartItem
  total : ℚ
  status : String
  paymentStatus : String
  shippingAddress : String
  paymentMethod : String
  createdAt : ℤ
  updatedAt : ℤ
deriving Repr, DecidableEq

/-- The two collections the embedded endpoints touch. -/
structure DBState where
  carts : List OCartDoc
  orders : List OrderDoc
deriving Repr, DecidableEq

/-- Exceptions raised by the embedded endpoints: FastAPI `HTTPException`,
Python `AttributeError` (missing attribute name), Python `IndexError`. -/
inductive PyErr where
  | httpError (status : ℕ) (detail : String)
  | attributeError (name : String)
  | indexError
deriving Repr, DecidableEq

deriving instance DecidableEq for Except

/-- Member map of `OrderStatus` (app/models/schemas.py lines 175-180):
the member names are lowercase. -/
def orderStatusMembers : List (String × String) :=
  [("pending", "pending"), ("processing", "processing"), ("shipped", "shipped"),
   ("delivered", "delivered"), ("cancelled", "cancelled")]

/-- Member map of `PaymentStatus` (app/models/schemas.py lines 168-172). -/
def paymentStatusMembers : List (String × String) :=
  [("pending", "pending"), ("paid", "paid"), ("failed", "failed"),
   ("refunded", "refunded")]

/-- Python `Enum` attribute access `Cls.NAME.value`: case-sensitive lookup
in the member map; a missing name raises `AttributeError`. -/
def enumValue (members : List (String × String)) (name : String) :
    Except PyErr String :=
  match members.find? (fun p => p.1 == name) with
  | some p => .ok p.2
  | Option.none => .error (.attributeError name)

/-- Mongo `find_one({"user": uid})` on the orders-router cart store. -/
def findOCart (carts : List OCartDoc) (uid : String) : Option OCartDoc :=
  carts.find? (fun c => c.user == uid)

/-- Mongo `update_one({"user": uid}, ...)`: rewrite the first matching
document, leave the rest untouched. -/
def updateFirstOCart : List OCartDoc → String → (OCartDoc → OCartDoc) → List OCartDoc
  | [], _, _ => []
  | c :: rest, uid, f =>
      if c.user == uid then f c :: rest else c :: updateFirstOCart rest uid f

/-- The orders-router `add_to_cart` (orders.py lines 222-265), after
product resolution: `update_one({"user": uid}, {"$push": {"items": item},
"$set": {"lastUpdated": now}}, upsert=True)`.  It appends unconditionally —
no merge — and an upserted document gets no `total` field. -/
def ordersAddToCart (s : DBState) (uid : String) (it : OCartItem) (now : ℤ) :
    DBState :=
  match findOCart s.carts uid with
  | some _ =>
      { s with carts := updateFirstOCart s.carts uid (fun c =>
          { c with items := c.items ++ [it], lastUpdated := now }) }
  | Option.none =>
      { s with carts := s.carts ++
          [{ user := uid, items := [it], total := Option.none, lastUpdated := now }] }

/-- Python list element assignment `items[i]["quantity"] = q` resolves the
index with negative-wraparound semantics; out of range raises IndexError. -/
def pyIndex (len : ℕ) (i : ℤ) : Option ℕ :=
  if 0 ≤ i then (if i < (len : ℤ) then some i.toNat else Option.none)
  else (if 0 ≤ i + len then some (i + (len : ℤ)).toNat else Option.none)

/-- Overwrite the quantity of the line at a resolved position. -/
def setQuantityAt : List OCartItem → ℕ → ℤ → List OCartItem
  | [], _, _ => []
  | it :: rest, 0, q => { it with quantity := q } :: rest
  | it :: rest, k + 1, q => it :: setQuantityAt rest k q

/-- The orders-router `update_cart_item` (orders.py lines 293-318):
404 when no cart or `item_index >= len(items)`; otherwise assign
`items[item_index]["quantity"] = quantity` (whatever its sign) and `$set`
items and lastUpdated.  The returned state is paired with the outcome. -/
def update_cart_item (s : DBState) (uid : String) (item_index : ℤ)
    (quantity : ℤ) (now : ℤ) : DBState × Except PyErr Unit :=
  match findOCart s.carts uid with
  | Option.none => (s, .error (.httpError 404 "Article non trouvé"))
  | some cart =>
      if (cart.items.length : ℤ) ≤ item_index then
        (s, .error (.httpError 404 "Article non trouvé"))
      else
        match pyIndex cart.items.length item_index with
        | Option.none => (s, .error .indexError)
        | some k =>
            ({ s with carts := updateFirstOCart s.carts uid (fun c =>
                 { c with items := setQuantityAt cart.items k quantity,
                          lastUpdated := now }) },
             .ok ())

/-- `create_order` (orders.py lines 30-89): read the cart, reject an empty
one with HTTP 400, compute the total, build the order dict — whose `status`
field evaluates `OrderStatus.PENDING.value` against lowercase member names —
insert the order, then `$set` the cart to empty items.  The returned state
shows every write performed before the outcome. -/
def createOrder (s : DBState) (uid : String)
    (shippingAddress paymentMethod : String) (now : ℤ) :
    DBState × Except PyErr OrderDoc :=
  match findOCart s.carts uid with
  | Option.none => (s, .error (.httpError 400 "Le panier est vide"))
  | some cart =>
      if cart.items.isEmpty then (s, .error (.httpError 400 "Le panier est vide"))
      else
        match enumValue orderStatusMembers "PENDING" with
        | .error e => (s, .error e)
        | .ok st =>
            match enumValue paymentStatusMembers "PENDING" with
            | .error e => (s, .error e)
            | .ok pst =>
                let order : OrderDoc :=
                  { user := uid, items := cart.items,
                    total := oCartTotal cart.items, status := st,
                    paymentStatus := pst, shippingAddress := shippingAddress,
                    paymentMethod := paymentMethod, createdAt := now,
                    updatedAt := now }
                let s1 : DBState := { s with orders := s.orders ++ [order] }
                let clearedCarts := updateFirstOCart s1.carts uid (fun c =>
                  { c with items := [], lastUpdated := now })
                let s2 : DBState := { s1 with carts := clearedCarts }
                (s2, .ok order)

/-! ## Document-level view of the cart-clearing write (claim C10) -/

/-- Mongo `$set` of a single field on a free-form document: replace the
binding when the field is present, append it otherwise. -/
def mongoSetField (doc : List (String × PyVal)) (k : String) (v : PyVal) :
    List (String × PyVal) :=
  if (doc.find? (fun p => p.1 == k)).isSome then
    doc.map (fun p => if p.1 == k then (k, v) else p)
  else doc ++ [(k, v)]

/-- The cart-clearing write of `create_order` (orders.py lines 69-73):
`{"$set": {"items": [], "lastUpdated": now}}`, seen at the document level. -/
def clearCartWrite (now : PyVal) (doc : List (String × PyVal)) :
    List (String × PyVal) :=
  mongoSetField (mongoSetField doc "items" (.list [])) "lastUpdated" now

/-- The read of cart.py `get_cart` (lines 11-35): find the document by
`userId` and return it verbatim — stored `total` included — creating an
empty cart document when absent.  The `_id`-to-`id` rename is elided since
`_id` is outside the model. -/
def getCartData (docs : List (List (String × PyVal))) (uid : String)
    (now : PyVal) : List (String × PyVal) :=
  match docs.find? (fun d =>
      match dictGet d "userId" with
      | some (.str s) => s == uid
      | _ => false) with
  | some d => d
  | Option.none =>
      [("userId", .str uid), ("items", .list []), ("total", .int 0),
       ("createdAt", now), ("updatedAt", now)]

/-- A stored cart document carrying one line and a denormalized total of
10. -/
def exampleCartDoc : List (String × PyVal) :=
  [("userId", .str "u"),
   ("items", .list [.dict [("productId", .str "p"), ("price", .int 5),
                           ("quantity", .int 2)]]),
   ("total", .int 10)]

/-! # Theorems -/

theorem subContribution_nonneg (v : PyVal) (h : leafNonneg v = true) :
    0 ≤ subContribution v := by
  cases v <;> simp_all [leafNonneg, subContribution]

theorem entryContribution_nonneg (v : PyVal) (h : entryNonneg v = true) :
    0 ≤ entryContribution v := by
  cases v with
  | none => simp [entryContribution]
  | int n => simpa [entryNonneg, entryContribution] using h
  | str s => simp [entryContribution]
  | list xs => simp [entryContribution]
  | dict sub =>
      simp only [entryContribution]
      apply List.sum_nonneg
      intro a ha
      obtain ⟨q, hq, rfl⟩ := List.mem_map.mp ha
      obtain ⟨k, w⟩ := q
      have hall : ∀ k2 w2, (k2, w2) ∈ sub → leafNonneg w2 = true := by
        simpa [entryNonneg] using h
      exact subContribution_nonneg _ (hall k w hq)

/-- C3 counterexample: on the malformed stock structure `{"a": -5}` —
a two-level mapping, hence inside the claim's quantification — the
availability total computed by the code is negative, refuting
"computeAvailability(S) returns a total that is greater than or equal to 0"
for every stock structure. -/
theorem stock_total_negative_example :
    (serializeAvailability stockNegExample).1 < 0 := by decide

/-- C3 (amended): for every stock structure whose integer leaves over the
two levels the walk reads are non-negative (the spec's own leaf invariant),
the availability total is non-negative; and for every structure — malformed
ones included, with no hypothesis — the derived `inStock` flag equals
`total > 0` (serialize_product line 71). -/
theorem availability_nonneg_of_nonneg_leaves (S : PyVal) :
    (intLeavesNonneg S = true → 0 ≤ (serializeAvailability S).1)
    ∧ (serializeAvailability S).2 = decide (0 < (serializeAvailability S).1) := by
  refine ⟨?_, rfl⟩
  intro h
  show 0 ≤ calculate_total_stock S
  cases S with
  | none => simp [calculate_total_stock, PyVal.pyTruthy, PyVal.isDict]
  | int n => simp [calculate_total_stock, PyVal.pyTruthy, PyVal.isDict]
  | str s => simp [calculate_total_stock, PyVal.pyTruthy, PyVal.isDict]
  | list xs => simp [calculate_total_stock, PyVal.pyTruthy, PyVal.isDict]
  | dict es =>
      unfold calculate_total_stock
      split
      · exact le_refl 0
      · apply List.sum_nonneg
        intro a ha
        obtain ⟨p, hp, rfl⟩ := List.mem_map.mp ha
        obtain ⟨k, w⟩ := p
        have hall : ∀ k2 w2, (k2, w2) ∈ es → entryNonneg w2 = true := by
          simpa [intLeavesNonneg] using h
        exact entryContribution_nonneg _ (hall k w hp)

theorem availability_nonneg_of_nonneg_leaves_witness :
    0 ≤ (serializeAvailability stockNestedExample).1
    ∧ (serializeAvailability stockNestedExample).2 =
        decide (0 < (serializeAvailability stockNestedExample).1) :=
  ⟨(availability_nonneg_of_nonneg_leaves stockNestedExample).1 (by decide),
   (availability_nonneg_of_nonneg_leaves stockNestedExample).2⟩

/-- C4: the code's `calculate_total_stock` coincides with the spec's
reference fold (one level of flat entries plus one level of nested entries,
integer leaves summed, everything else ignored, missing/null giving 0) on
every input value, and the spec's worked examples hold: `{"50ml": 10}`
gives 10, `{"Noir": {"S": 5, "M": 10}, "Blanc": {"S": 3}}` gives 18, and
`{}` and `None` give total 0 with `inStock = false`. -/
theorem stock_availability_matches_reference_fold :
    (∀ S : PyVal, calculate_total_stock S = specAvailability S)
    ∧ calculate_total_stock stockFlatExample = 10
    ∧ calculate_total_stock stockNestedExample = 18
    ∧ serializeAvailability (PyVal.dict []) = (0, false)
    ∧ serializeAvailability PyVal.none = (0, false) := by
  refine ⟨?_, by decide, by decide, by decide, by decide⟩
  intro S
  cases S with
  | none => rfl
  | int n => simp [calculate_total_stock, PyVal.pyTruthy, PyVal.isDict, specAvailability]
  | str s => simp [calculate_total_stock, PyVal.pyTruthy, PyVal.isDict, specAvailability]
  | list xs => simp [calculate_total_stock, PyVal.pyTruthy, PyVal.isDict, specAvailability]
  | dict es =>
      cases es with
      | nil => rfl
      | cons e rest =>
          simp only [calculate_total_stock, PyVal.pyTruthy, PyVal.isDict,
            List.isEmpty_cons, Bool.not_false, Bool.not_true, Bool.or_false,
            Bool.false_or, Bool.false_eq_true, if_false, specAvailability]
          refine congrArg List.sum (List.map_congr_left ?_)
          intro p hp
          obtain ⟨k, w⟩ := p
          cases w with
          | none => rfl
          | int n => rfl
          | str s => rfl
          | list xs => rfl
          | dict sub2 =>
              simp only [entryContribution]
              refine congrArg List.sum (List.map_congr_left ?_)
              intro q hq
              obtain ⟨k2, w2⟩ := q
              cases w2 <;> rfl

/-! ## Claim C5: merge-by-identity-key on add -/

theorem sameKey_find_isSome (pre post : List CartItem) (m : CartItem)
    (pid size color : String) (hm : sameKey m pid size color = true) :
    ((pre ++ m :: post).find? (fun i => sameKey i pid size color)).isSome = true := by
  rw [List.find?_append]
  cases hpre2 : pre.find? (fun i => sameKey i pid size color) with
  | some x => rfl
  | none => simp [List.find?, hm]

theorem sameKey_find_isNone (items : List CartItem) (pid size color : String)
    (h : ∀ x ∈ items, sameKey x pid size color = false) :
    (items.find? (fun i => sameKey i pid size color)).isSome = false := by
  rw [List.find?_eq_none.mpr]
  · rfl
  · intro x hx
    simp [h x hx]

theorem bumpFirst_eq (pre post : List CartItem) (m : CartItem)
    (pid size color : String) (q : ℤ)
    (hpre : ∀ x ∈ pre, sameKey x pid size color = false)
    (hm : sameKey m pid size color = true) :
    bumpFirst (pre ++ m :: post) pid size color q =
      pre ++ { m with quantity := m.quantity + q } :: post := by
  induction pre with
  | nil => simp [bumpFirst, hm]
  | cons a as ih =>
      have ha : sameKey a pid size color = false := hpre a (List.mem_cons_self a as)
      simp [bumpFirst, ha, ih (fun x hx => hpre x (List.mem_cons_of_mem a hx))]

/-- Sample items with one identity key and quantities 2, 3 and 5. -/
def sampleItemQ2 : CartItem :=
  { productId := "p1", name := "Tee", price := 1000, quantity := 2,
    size := "M", color := "Noir" }

def sampleItemQ3 : CartItem := { sampleItemQ2 with quantity := 3 }

def sampleItemQ5 : CartItem := { sampleItemQ2 with quantity := 5 }

/-- A line with a different identity key (different productId). -/
def sampleOther : CartItem :=
  { productId := "p2", name := "Sac", price := 500, quantity := 1,
    size := "L", color := "Blanc" }

/-- C5 (amended): the /api/cart `add_to_cart` does merge by the identity
key (productId, size, color): when the cart is `pre ++ m :: post` with no
line of `pre` matching the new item's key and `m` matching it, the add
increments `m`'s quantity in place and appends nothing; when no line
matches, the new line is appended; and adding quantities 2 then 3 for one
key yields the single line with quantity 5.  (The duplicate add endpoint
under the orders router appends unconditionally instead — see the
counterexample theorem.) -/
theorem cart_add_merges_by_key (pre post : List CartItem) (m it : CartItem)
    (hpre : ∀ x ∈ pre, sameKey x it.productId it.size it.color = false)
    (hm : sameKey m it.productId it.size it.color = true) :
    cartAddItems (pre ++ m :: post) it =
      pre ++ { m with quantity := m.quantity + it.quantity } :: post
    ∧ cartAddItems pre it = pre ++ [it]
    ∧ cartAddItems (cartAddItems [] sampleItemQ2) sampleItemQ3 = [sampleItemQ5] := by
  refine ⟨?_, ?_, by decide⟩
  · unfold cartAddItems
    simp only [sameKey_find_isSome pre post m it.productId it.size it.color hm, if_true]
    exact bumpFirst_eq pre post m it.productId it.size it.color it.quantity hpre hm
  · unfold cartAddItems
    simp [sameKey_find_isNone pre it.productId it.size it.color hpre]

theorem cart_add_merges_by_key_witness :
    cartAddItems ([sampleOther] ++ sampleItemQ2 :: []) sampleItemQ3 =
      [sampleOther] ++
        { sampleItemQ2 with
            quantity := sampleItemQ2.quantity + sampleItemQ3.quantity } :: []
    ∧ cartAddItems [sampleOther] sampleItemQ3 = [sampleOther] ++ [sampleItemQ3]
    ∧ cartAddItems (cartAddItems [] sampleItemQ2) sampleItemQ3 = [sampleItemQ5] :=
  cart_add_merges_by_key [sampleOther] [] sampleItemQ2 sampleItemQ3
    (by decide) (by decide)

/-- The orders-router sample items: same productId added twice. -/
def oItemQ2 : OCartItem :=
  { productId := "p1", name := "Tee", price := 1000, quantity := 2, image := "" }

def oItemQ3 : OCartItem := { oItemQ2 with quantity := 3 }

/-- The empty database state. -/
def emptyDB : DBState := { carts := [], orders := [] }

/-- C5 counterexample: through the add endpoint of the orders router
(orders.py lines 222-265, one of the claim's cited entry points), adding
the same product twice with quantities 2 and 3 leaves a cart with two
separate lines of quantities 2 and 3 — the matching key is appended as a
second line instead of incrementing the existing one to 5. -/
theorem orders_add_appends_instead_of_merging :
    (ordersAddToCart (ordersAddToCart emptyDB "u" oItemQ2 0) "u" oItemQ3 1).carts =
      [{ user := "u", items := [oItemQ2, oItemQ3], total := Option.none,
         lastUpdated := 1 }] := by
  decide

/-! ## Claim C6: the denormalized cart total -/

theorem findCartDoc_updateFirst (docs : List CartDoc) (uid : String)
    (f : CartDoc → CartDoc) (hf : ∀ d, (f d).userId = d.userId) :
    findCartDoc (updateFirstCart docs uid f) uid = (findCartDoc docs uid).map f := by
  induction docs with
  | nil => rfl
  | cons d rest ih =>
      cases hd : d.userId == uid with
      | false =>
          have h1 : updateFirstCart (d :: rest) uid f = d :: updateFirstCart rest uid f := by
            simp [updateFirstCart, hd]
          have h2 : findCartDoc (d :: rest) uid = findCartDoc rest uid := by
            simp [findCartDoc, List.find?, hd]
          have h3 : findCartDoc (d :: updateFirstCart rest uid f) uid =
              findCartDoc (updateFirstCart rest uid f) uid := by
            simp [findCartDoc, List.find?, hd]
          rw [h1, h3, h2, ih]
      | true =>
          have h1 : updateFirstCart (d :: rest) uid f = f d :: rest := by
            simp [updateFirstCart, hd]
          have h2 : findCartDoc (d :: rest) uid = some d := by
            simp [findCartDoc, List.find?, hd]
          have hfd : (f d).userId == uid := by rw [hf d]; exact hd
          have h3 : findCartDoc (f d :: rest) uid = some (f d) := by
            simp [findCartDoc, List.find?, hfd]
          rw [h1, h3, h2]
          rfl

theorem findCartDoc_append_self (docs : List CartDoc) (uid : String) (nd : CartDoc)
    (h : findCartDoc docs uid = Option.none) (hnd : nd.userId = uid) :
    findCartDoc (docs ++ [nd]) uid = some nd := by
  unfold findCartDoc at h ⊢
  rw [List.find?_append, h]
  simp [List.find?, hnd]

theorem applyCartMutation_consistent (docs : List CartDoc) (uid : String)
    (now : ℤ) (m : CartMutation) :
    storedTotalConsistent (applyCartMutation docs uid now m) uid = true := by
  cases m with
  | add it =>
      cases hf : findCartDoc docs uid with
      | none =>
          simp only [applyCartMutation, hf]
          unfold storedTotalConsistent
          rw [findCartDoc_append_self docs uid _ hf rfl]
          simp
      | some d =>
          simp only [applyCartMutation, hf]
          unfold storedTotalConsistent
          have hstep := findCartDoc_updateFirst docs uid
            (fun d2 => { d2 with items := cartAddItems d2.items it,
                                 total := cartTotal (cartAddItems d2.items it),
                                 updatedAt := now }) (fun d2 => rfl)
          rw [hstep, hf]
          simp
  | replace its =>
      cases hf : findCartDoc docs uid with
      | none =>
          simp only [applyCartMutation, hf]
          unfold storedTotalConsistent
          rw [findCartDoc_append_self docs uid _ hf rfl]
          simp
      | some d =>
          simp only [applyCartMutation, hf]
          unfold storedTotalConsistent
          have hstep := findCartDoc_updateFirst docs uid
            (fun d2 => { d2 with items := its, total := cartTotal its,
                                 updatedAt := now }) (fun d2 => rfl)
          rw [hstep, hf]
          simp
  | clear =>
      simp only [applyCartMutation]
      unfold storedTotalConsistent
      have hstep := findCartDoc_updateFirst docs uid
        (fun d2 => { d2 with items := [], total := 0, updatedAt := now })
        (fun d2 => rfl)
      rw [hstep]
      cases findCartDoc docs uid <;> simp [cartTotal]

/-- C6 (amended): after any non-empty sequence of mutations of the
/api/cart store for a user — add (merge), bulk replace, clear — the cart
document addressed for that user stores a total equal to
Σ line.price · line.quantity over its lines.  (The duplicate cart endpoints
under the orders router do not maintain any stored total — see the
counterexample theorem.) -/
theorem cart_total_consistent_after_mutations (docs : List CartDoc)
    (uid : String) (ms : List (ℤ × CartMutation)) (h : ms ≠ []) :
    storedTotalConsistent (applyCartMutations docs uid ms) uid = true := by
  rcases List.eq_nil_or_concat' ms with rfl | ⟨ms0, p, rfl⟩
  · exact absurd rfl h
  · unfold applyCartMutations
    rw [List.foldl_append]
    simp only [List.foldl_cons, List.foldl_nil]
    exact applyCartMutation_consistent _ uid p.1 p.2

theorem cart_total_consistent_after_mutations_witness :
    storedTotalConsistent
      (applyCartMutations [] "u"
        [(0, CartMutation.add sampleItemQ2), (1, CartMutation.add sampleItemQ3)])
      "u" = true :=
  cart_total_consistent_after_mutations [] "u"
    [(0, CartMutation.add sampleItemQ2), (1, CartMutation.add sampleItemQ3)]
    (by simp)

/-- A consistent orders-router cart: one line at price 5 quantity 2, with a
stored total of 10. -/
def staleCart : OCartDoc :=
  { user := "u",
    items := [{ productId := "p1", name := "Tee", price := 5, quantity := 2,
                image := "" }],
    total := some 10, lastUpdated := 0 }

def staleDB : DBState := { carts := [staleCart], orders := [] }

/-- C6 counterexample: the orders-router `update_cart_item` (orders.py
lines 293-318, a cited mutation of the claim) writes back only items and
lastUpdated.  Starting from a cart whose stored total 10 equals its line
sum, updating the line's quantity from 2 to 4 leaves the stored total at 10
while the line sum becomes 20 — the persisted total no longer equals
Σ price · quantity. -/
theorem update_cart_item_leaves_stale_total :
    (update_cart_item staleDB "u" 0 4 1).1.carts =
      [{ user := "u",
         items := [{ productId := "p1", name := "Tee", price := 5,
                     quantity := 4, image := "" }],
         total := some 10, lastUpdated := 1 }]
    ∧ oCartTotal [{ productId := "p1", name := "Tee", price := 5,
                    quantity := 4, image := "" }] = 20 := by
  constructor
  · decide
  · norm_num [oCartTotal]

/-! ## Claim C9: update_cart_item -/

theorem setQuantityAt_length (l : List OCartItem) (k : ℕ) (q : ℤ) :
    (setQuantityAt l k q).length = l.length := by
  induction l generalizing k with
  | nil => rfl
  | cons a rest ih =>
      cases k with
      | zero => rfl
      | succ k2 => simp [setQuantityAt, ih]

/-- C9 (amended): the orders-router `update_cart_item` fails with HTTP 404
(NotFound) when no cart document exists for the user or when the index is
at least the number of cart lines, leaving the state unchanged; for an
in-range non-negative index it succeeds and persists exactly the supplied
quantity — zero and negative values included — without removing the line
(the line count is preserved). -/
theorem update_cart_item_notfound_or_sets_quantity (s : DBState)
    (uid : String) (cart : OCartDoc) (i q now : ℤ) :
    (findOCart s.carts uid = Option.none →
       update_cart_item s uid i q now =
         (s, .error (.httpError 404 "Article non trouvé")))
    ∧ (findOCart s.carts uid = some cart → (cart.items.length : ℤ) ≤ i →
       update_cart_item s uid i q now =
         (s, .error (.httpError 404 "Article non trouvé")))
    ∧ (findOCart s.carts uid = some cart → 0 ≤ i → i < (cart.items.length : ℤ) →
       update_cart_item s uid i q now =
         ({ s with carts := updateFirstOCart s.carts uid (fun c =>
              { c with items := setQuantityAt cart.items i.toNat q,
                       lastUpdated := now }) },
          .ok ())
       ∧ (setQuantityAt cart.items i.toNat q).length = cart.items.length) := by
  refine ⟨?_, ?_, ?_⟩
  · intro h
    simp only [update_cart_item, h]
  · intro h hle
    simp only [update_cart_item, h]
    rw [if_pos hle]
  · intro h h0 hlt
    refine ⟨?_, setQuantityAt_length _ _ _⟩
    simp only [update_cart_item, h]
    rw [if_neg (not_le.mpr hlt)]
    have hpy : pyIndex cart.items.length i = some i.toNat := by
      unfold pyIndex
      rw [if_pos h0, if_pos hlt]
    rw [hpy]

/-- A one-line cart (price 5, quantity 2) and its database state. -/
def qCart : OCartDoc :=
  { user := "u",
    items := [{ productId := "p1", name := "Tee", price := 5, quantity := 2,
                image := "" }],
    total := Option.none, lastUpdated := 0 }

def qDB : DBState := { carts := [qCart], orders := [] }

theorem update_cart_item_notfound_or_sets_quantity_witness :
    update_cart_item emptyDB "u" 0 1 9 =
      (emptyDB, .error (.httpError 404 "Article non trouvé"))
    ∧ update_cart_item qDB "u" 5 1 9 =
      (qDB, .error (.httpError 404 "Article non trouvé"))
    ∧ (update_cart_item qDB "u" 0 (-3) 9 =
         ({ qDB with carts := updateFirstOCart qDB.carts "u" (fun c =>
              { c with items := setQuantityAt qCart.items (Int.toNat 0) (-3),
                       lastUpdated := 9 }) },
          .ok ())
       ∧ (setQuantityAt qCart.items (Int.toNat 0) (-3)).length =
           qCart.items.length) :=
  ⟨(update_cart_item_notfound_or_sets_quantity emptyDB "u" qCart 0 1 9).1 rfl,
   (update_cart_item_notfound_or_sets_quantity qDB "u" qCart 5 1 9).2.1 rfl
     (by decide),
   (update_cart_item_notfound_or_sets_quantity qDB "u" qCart 0 (-3) 9).2.2 rfl
     (by decide) (by decide)⟩

/-- C9 counterexample: updating the only line of a one-line cart to
quantity 0 succeeds and persists the line with quantity 0 — the line is not
removed, so a non-positive quantity is stored in a cart line, refuting
"when the supplied quantity is ≤ 0 it removes the line, and a non-positive
quantity is never persisted". -/
theorem update_cart_item_persists_zero_quantity :
    (update_cart_item qDB "u" 0 0 1).2 = .ok ()
    ∧ (update_cart_item qDB "u" 0 0 1).1.carts =
        [{ user := "u",
           items := [{ productId := "p1", name := "Tee", price := 5,
                       quantity := 0, image := "" }],
           total := Option.none, lastUpdated := 1 }] := by
  constructor
  · decide
  · decide

/-! ## Claims C1, C2, C7, C8: the cart-to-order commit -/

/-- The enum member lookup that `create_order` line 58 performs. -/
theorem orderStatus_PENDING_missing :
    enumValue orderStatusMembers "PENDING" = .error (.attributeError "PENDING") := rfl

/-- Every execution of `create_order` returns the database unchanged: the
empty-cart check raises before any write, and the attribute lookup
`OrderStatus.PENDING` (line 58) raises before the insert at line 66, so the
success path — insert, then clear — is never reached. -/
theorem createOrder_state_unchanged (s : DBState) (uid addr pm : String)
    (now : ℤ) : (createOrder s uid addr pm now).1 = s := by
  cases hf : findOCart s.carts uid with
  | none => simp only [createOrder, hf]
  | some c =>
      cases he : c.items.isEmpty with
      | false =>
          simp only [createOrder, hf, he, Bool.false_eq_true, if_false]
          rw [orderStatus_PENDING_missing]
      | true => simp only [createOrder, hf, he, if_true]

/-- The emptiness test of orders.py line 47, `not cart or not
cart.get("items")`: no cart document, or a cart whose items list is empty. -/
def cartIsEmpty (s : DBState) (uid : String) : Bool :=
  match findOCart s.carts uid with
  | Option.none => true
  | some c => c.items.isEmpty

/-- C2: committing when the user's cart is absent or has zero items fails
with the EmptyCart error (HTTP 400 "Le panier est vide") and performs no
writes; and every execution of the commit that does not return a created
order leaves the database — cart included — exactly intact, so no
execution both fails to create an order and destroys the cart.  (In the
source the clearing `$set` at lines 69-73 is sequenced strictly after the
successful insert at line 66.) -/
theorem createOrder_empty_cart_and_failure_safety (s : DBState)
    (uid addr pm : String) (now : ℤ) :
    (cartIsEmpty s uid = true →
       createOrder s uid addr pm now =
         (s, .error (.httpError 400 "Le panier est vide")))
    ∧ ((createOrder s uid addr pm now).2.toBool = false →
       (createOrder s uid addr pm now).1 = s) := by
  constructor
  · intro h
    cases hf : findOCart s.carts uid with
    | none => simp only [createOrder, hf]
    | some c =>
        have h2 : c.items.isEmpty = true := by
          unfold cartIsEmpty at h
          rw [hf] at h
          exact h
        simp only [createOrder, hf]
        rw [if_pos h2]
  · intro _
    exact createOrder_state_unchanged s uid addr pm now

/-- A state holding a cart document with zero items. -/
def emptyCartDB : DBState :=
  { carts := [{ user := "u", items := [], total := Option.none,
                lastUpdated := 0 }],
    orders := [] }

theorem createOrder_empty_cart_and_failure_safety_witness :
    createOrder emptyCartDB "u" "Dakar" "wave" 5 =
      (emptyCartDB, .error (.httpError 400 "Le panier est vide"))
    ∧ (createOrder emptyCartDB "u" "Dakar" "wave" 5).1 = emptyCartDB :=
  ⟨(createOrder_empty_cart_and_failure_safety emptyCartDB "u" "Dakar" "wave" 5).1
      rfl,
   (createOrder_empty_cart_and_failure_safety emptyCartDB "u" "Dakar" "wave" 5).2
      rfl⟩

/-- A non-empty cart: one line, price 100, quantity 2 (pre-commit total
200). -/
def checkoutItem : OCartItem :=
  { productId := "p1", name := "Parfum", price := 100, quantity := 2,
    image := "" }

def checkoutCart : OCartDoc :=
  { user := "u", items := [checkoutItem], total := Option.none,
    lastUpdated := 0 }

def checkoutDB : DBState := { carts := [checkoutCart], orders := [] }

/-- C1 (code bug): committing the non-empty cart — one line, price 100,
quantity 2, pre-commit total 200 — does not create any order and does not
clear the cart.  Building the order dict evaluates `OrderStatus.PENDING`
(orders.py line 58), but schemas.py lines 175-180 define the member as
lowercase `pending`, so the call raises AttributeError before the insert:
the orders collection stays empty and the cart keeps its line, contradicting
the claim and `create_order`'s own docstring ("Crée la commande — Vide le
panier"). -/
theorem createOrder_crashes_on_nonempty_cart :
    createOrder checkoutDB "u" "Dakar" "wave" 5 =
      (checkoutDB, .error (.attributeError "PENDING"))
    ∧ oCartTotal checkoutCart.items = 200
    ∧ (createOrder checkoutDB "u" "Dakar" "wave" 5).1.orders = []
    ∧ (createOrder checkoutDB "u" "Dakar" "wave" 5).1.carts = [checkoutCart] := by
  refine ⟨by decide, ?_, rfl, by decide⟩
  norm_num [oCartTotal, checkoutCart, checkoutItem]

/-- A second non-empty cart for a different user. -/
def checkoutItem7 : OCartItem :=
  { productId := "p2", name := "Sac", price := 50, quantity := 1, image := "" }

def checkoutDB7 : DBState :=
  { carts := [{ user := "v", items := [checkoutItem7], total := Option.none,
                lastUpdated := 0 }],
    orders := [] }

/-- C7 (code bug): no successful commit ever persists an order with status
"pending" and paymentStatus "pending": the member lookup
`OrderStatus.PENDING` fails (the enum members are lowercase), the commit
returns AttributeError instead of an order snapshot, and the orders
collection stays empty. -/
theorem createOrder_never_persists_pending_status :
    enumValue orderStatusMembers "PENDING" = .error (.attributeError "PENDING")
    ∧ createOrder checkoutDB7 "v" "Thies" "cash" 3 =
        (checkoutDB7, .error (.attributeError "PENDING"))
    ∧ (createOrder checkoutDB7 "v" "Thies" "cash" 3).1.orders = [] :=
  ⟨rfl, by decide, rfl⟩

/-- A third non-empty cart for the double-commit scenario. -/
def checkoutDB8 : DBState :=
  { carts := [{ user := "w",
                items := [{ productId := "p3", name := "Montre", price := 7,
                            quantity := 1, image := "" }],
                total := Option.none, lastUpdated := 0 }],
    orders := [] }

/-- C8 (code bug): two sequential commit attempts for the same user create
zero orders — each raises AttributeError on `OrderStatus.PENDING` — so no
two orders with distinct order numbers exist; independently, the order
document built at orders.py lines 54-64 (see `OrderDoc`) has no
order-number field, and the code contains no `CMD-` number generation or
collision retry anywhere. -/
theorem sequential_commits_create_no_orders :
    (createOrder ((createOrder checkoutDB8 "w" "a" "wave" 1).1) "w" "a" "wave"
        2).1.orders = []
    ∧ (createOrder ((createOrder checkoutDB8 "w" "a" "wave" 1).1) "w" "a" "wave"
        2).2 = .error (.attributeError "PENDING") := by
  constructor
  · decide
  · decide

/-! ## Claim C10: the frame of the cart-clearing write -/

theorem dictGet_map_set (doc : List (String × PyVal)) (k : String) (v : PyVal)
    (h : (doc.find? (fun p => p.1 == k)).isSome = true) :
    dictGet (doc.map (fun p => if p.1 == k then (k, v) else p)) k = some v := by
  induction doc with
  | nil => simp [List.find?] at h
  | cons a rest ih =>
      cases ha : a.1 == k with
      | true => simp [dictGet, List.find?, ha]
      | false =>
          have h2 : (rest.find? (fun p => p.1 == k)).isSome = true := by
            simpa [List.find?, ha] using h
          simpa [dictGet, List.find?, ha] using ih h2

theorem dictGet_append_set (doc : List (String × PyVal)) (k : String)
    (v : PyVal) (h : (doc.find? (fun p => p.1 == k)).isSome = false) :
    dictGet (doc ++ [(k, v)]) k = some v := by
  unfold dictGet
  rw [List.find?_append]
  cases hfind : doc.find? (fun p => p.1 == k) with
  | some x => rw [hfind] at h; simp at h
  | none => simp [List.find?]

/-- Setting a field makes that field read as the new value. -/
theorem dictGet_set_same (doc : List (String × PyVal)) (k : String)
    (v : PyVal) : dictGet (mongoSetField doc k v) k = some v := by
  unfold mongoSetField
  cases hs : (doc.find? (fun p => p.1 == k)).isSome with
  | true =>
      rw [if_pos rfl]
      exact dictGet_map_set doc k v hs
  | false =>
      rw [if_neg (by decide)]
      exact dictGet_append_set doc k v hs

theorem dictGet_map_set_other (doc : List (String × PyVal)) (k k2 : String)
    (v : PyVal) (hne : k2 ≠ k) :
    dictGet (doc.map (fun p => if p.1 == k then (k, v) else p)) k2 =
      dictGet doc k2 := by
  have hk : (k == k2) = false := by
    simp only [beq_eq_false_iff_ne, ne_eq]
    exact fun e => hne e.symm
  induction doc with
  | nil => rfl
  | cons a rest ih =>
      cases ha : a.1 == k with
      | true =>
          have ha2 : (a.1 == k2) = false := by
            have : a.1 = k := by simpa using ha
            rw [this]
            exact hk
          simp [dictGet, List.find?, ha, ha2, hk] at ih ⊢
          exact ih
      | false =>
          cases ha2 : a.1 == k2 with
          | true => simp [dictGet, List.find?, ha, ha2]
          | false =>
              simp [dictGet, List.find?, ha, ha2] at ih ⊢
              exact ih

theorem dictGet_append_set_other (doc : List (String × PyVal)) (k k2 : String)
    (v : PyVal) (hne : k2 ≠ k) :
    dictGet (doc ++ [(k, v)]) k2 = dictGet doc k2 := by
  have hk : (k == k2) = false := by
    simp only [beq_eq_false_iff_ne, ne_eq]
    exact fun e => hne e.symm
  unfold dictGet
  rw [List.find?_append]
  cases doc.find? (fun p => p.1 == k2) with
  | some x => rfl
  | none => simp [List.find?, hk]

/-- Setting one field leaves the reads of every other field unchanged. -/
theorem dictGet_set_other (doc : List (String × PyVal)) (k k2 : String)
    (v : PyVal) (hne : k2 ≠ k) :
    dictGet (mongoSetField doc k v) k2 = dictGet doc k2 := by
  unfold mongoSetField
  cases hs : (doc.find? (fun p => p.1 == k)).isSome with
  | true =>
      rw [if_pos rfl]
      exact dictGet_map_set_other doc k k2 v hne
  | false =>
      rw [if_neg (by decide)]
      exact dictGet_append_set_other doc k k2 v hne

/-- C10: the cart-clearing `$set` of a committed order (orders.py lines
69-73) overwrites only the `items` and `lastUpdated` fields of the cart
document: any other field — the denormalized `total` in particular — reads
the same after the write, while `items` reads as the empty list; on the
stored cart with one line and total 10, the cleared document read verbatim
by cart.py `get_cart` reports empty items next to the stale total 10. -/
theorem clear_write_touches_only_items_and_lastUpdated
    (doc : List (String × PyVal)) (now : PyVal) (k : String)
    (h1 : k ≠ "items") (h2 : k ≠ "lastUpdated") :
    dictGet (clearCartWrite now doc) k = dictGet doc k
    ∧ dictGet (clearCartWrite now doc) "items" = some (.list [])
    ∧ dictGet (getCartData [clearCartWrite (.str "T") exampleCartDoc] "u" .none)
        "total" = some (.int 10)
    ∧ dictGet (getCartData [clearCartWrite (.str "T") exampleCartDoc] "u" .none)
        "items" = some (.list []) := by
  refine ⟨?_, ?_, rfl, rfl⟩
  · unfold clearCartWrite
    rw [dictGet_set_other _ _ _ _ h2, dictGet_set_other _ _ _ _ h1]
  · unfold clearCartWrite
    rw [dictGet_set_other _ _ _ _ (by decide), dictGet_set_same]

theorem clear_write_touches_only_items_and_lastUpdated_witness :
    dictGet (clearCartWrite (.str "T") exampleCartDoc) "total" =
      dictGet exampleCartDoc "total"
    ∧ dictGet (clearCartWrite (.str "T") exampleCartDoc) "items" =
        some (.list [])
    ∧ dictGet (getCartData [clearCartWrite (.str "T") exampleCartDoc] "u" .none)
        "total" = some (.int 10)
    ∧ dictGet (getCartData [clearCartWrite (.str "T") exampleCartDoc] "u" .none)
        "items" = some (.list []) :=
  clear_write_touches_only_items_and_lastUpdated exampleCartDoc (.str "T")
    "total" (by decide) (by decide)
